import Mathlib

/-!
Verification development for the IMDB-Clone repository.

The definitions below are a shallow embedding of the repository's data
pipeline and query layer:

* `readCell`, `parseNum`, `pyToNumeric` — the `pd.read_csv(..., na_values=['\\N',''])`
  null-sentinel handling and `pd.to_numeric(..., errors='coerce')` numeric
  coercion shared by both importers;
* `turboCoerceTitle`, `turboRatingsImport`, ... — `TurboDataImporter._optimize_dataframe`
  (src/turbo_importer.py);
* `cloneCoerceTitle`, `cloneRatingsImport`, ... — the per-table column handling of
  `IMDBClone.import_data` (src/imdb_clone.py);
* orchestration step lists — `TurboDataImporter.turbo_import` and
  `IMDBClone.setup_database`;
* `insertChunksFrom` — the chunked loading loops (`parallel_insert`/`_insert_chunk`
  and the chunk loop of `import_data`);
* `movieSearch` — `OptimizedQueries.MOVIE_SEARCH` ranking semantics;
* `cacheKey`, `executeQuery` — `OptimizedDatabaseManager.execute_query`
  (src/optimized_database.py).
-/

namespace IMDBClone

/-! ### Source reading: null sentinel handling

`pd.read_csv(f, sep='\t', na_values=['\\N', ''], keep_default_na=True, dtype=str)`:
an empty cell or the literal token `\N` becomes a missing value (`None`). -/

/-- A raw cell after CSV reading: the null-sentinel `\N` and the empty string
become missing values, any other text is kept verbatim. -/
def readCell (s : String) : Option String :=
  if s = "" ∨ s = "\\N" then none else some s

/-! ### Numeric coercion: `pd.to_numeric(col, errors='coerce')`

A decimal numeral (optional sign, digits, at most one decimal point) parses to
its rational value; anything else coerces to a missing value (`NaN`), never an
exception. -/

/-- Value of a list of decimal digit characters. -/
def digitsVal (l : List Char) : Nat :=
  l.foldl (fun a c => 10 * a + (c.toNat - 48)) 0

/-- Parse an unsigned decimal numeral (`"1994"`, `"7.5"`, `"7."`, `".5"`). -/
def parseUnsigned (cs : List Char) : Option Rat :=
  match cs.splitOn '.' with
  | [ip] =>
      if !ip.isEmpty && ip.all Char.isDigit then
        some (digitsVal ip : Rat)
      else none
  | [ip, fp] =>
      if !(ip ++ fp).isEmpty && (ip ++ fp).all Char.isDigit then
        some ((digitsVal ip : Rat) + (digitsVal fp : Rat) / (10 : Rat) ^ fp.length)
      else none
  | _ => none

/-- Parse a signed decimal numeral, the model of a string `pd.to_numeric`
accepts; `none` models coercion failure (`NaN`). -/
def parseNum (s : String) : Option Rat :=
  match s.data with
  | '-' :: r => (parseUnsigned r).map (fun q => -q)
  | '+' :: r => parseUnsigned r
  | r => parseUnsigned r

/-- `pd.to_numeric(col, errors='coerce')` on one cell: a missing value stays
missing, an unparsable string degrades to missing, a numeral parses. -/
def pyToNumeric (c : Option String) : Option Rat :=
  c.bind parseNum

/-- `astype(int)` on a numeric value truncates toward zero. -/
def ratTrunc (q : Rat) : Int :=
  q.num.tdiv (q.den : Int)

/-! ### Entity records -/

/-- A raw Title row (`title.basics`): every non-key field is a possibly-missing
string after null-sentinel translation. -/
structure RawTitle where
  tconst : String
  titleType : Option String
  primaryTitle : Option String
  originalTitle : Option String
  isAdult : Option String
  startYear : Option String
  endYear : Option String
  runtimeMinutes : Option String
  genres : Option String

/-- A coerced Title row as persisted in `title_basics`. -/
structure TitleRec where
  tconst : String
  titleType : Option String
  primaryTitle : Option String
  originalTitle : Option String
  isAdult : Int
  startYear : Option Rat
  endYear : Option Rat
  runtimeMinutes : Option Rat
  genres : Option String
deriving DecidableEq

/-- A raw Person row (`name.basics`). -/
structure RawName where
  nconst : String
  primaryName : Option String
  birthYear : Option String
  deathYear : Option String
  primaryProfession : Option String
  knownForTitles : Option String

/-- A coerced Person row as persisted in `name_basics`. -/
structure NameRec where
  nconst : String
  primaryName : Option String
  birthYear : Option Rat
  deathYear : Option Rat
  primaryProfession : Option String
  knownForTitles : Option String
deriving DecidableEq

/-- A raw Episode row (`title.episode`). -/
structure RawEpisode where
  tconst : String
  parentTconst : Option String
  seasonNumber : Option String
  episodeNumber : Option String

/-- A coerced Episode row as persisted in `title_episode`. -/
structure EpisodeRec where
  tconst : String
  parentTconst : Option String
  seasonNumber : Option Rat
  episodeNumber : Option Rat
deriving DecidableEq

/-- A raw Rating row (`title.ratings`). -/
structure RawRating where
  tconst : String
  averageRating : Option String
  numVotes : Option String
deriving DecidableEq

/-- A coerced Rating row as persisted by the turbo importer in
`title_ratings`: both numeric fields are required. -/
structure RatingRec where
  tconst : String
  averageRating : Rat
  numVotes : Rat
deriving DecidableEq

/-- A Rating row as persisted by the basic importer (`imdb_clone.py`), whose
`title_ratings` schema allows nulls in both numeric columns. -/
structure CloneRatingRec where
  tconst : String
  averageRating : Option Rat
  numVotes : Option Rat
deriving DecidableEq

/-! ### Turbo importer coercion (`TurboDataImporter._optimize_dataframe`) -/

/-- Title coercion of the turbo importer:
`isAdult = to_numeric(errors='coerce').fillna(0).astype(int)`, year and
runtime columns `to_numeric(errors='coerce')`. -/
def turboCoerceTitle (r : RawTitle) : TitleRec :=
  { tconst := r.tconst
    titleType := r.titleType
    primaryTitle := r.primaryTitle
    originalTitle := r.originalTitle
    isAdult := match pyToNumeric r.isAdult with
               | none => 0
               | some q => ratTrunc q
    startYear := pyToNumeric r.startYear
    endYear := pyToNumeric r.endYear
    runtimeMinutes := pyToNumeric r.runtimeMinutes
    genres := r.genres }

/-- The turbo importer persists every Title row, coerced. -/
def turboTitleImport (rows : List RawTitle) : List TitleRec :=
  rows.map turboCoerceTitle

/-- Person coercion (`birthYear`/`deathYear` via `to_numeric(errors='coerce')`),
identical in both importers. -/
def coerceName (r : RawName) : NameRec :=
  { nconst := r.nconst
    primaryName := r.primaryName
    birthYear := pyToNumeric r.birthYear
    deathYear := pyToNumeric r.deathYear
    primaryProfession := r.primaryProfession
    knownForTitles := r.knownForTitles }

/-- Episode coercion (`seasonNumber`/`episodeNumber` via
`to_numeric(errors='coerce')`), identical in both importers. -/
def coerceEpisode (r : RawEpisode) : EpisodeRec :=
  { tconst := r.tconst
    parentTconst := r.parentTconst
    seasonNumber := pyToNumeric r.seasonNumber
    episodeNumber := pyToNumeric r.episodeNumber }

/-- Rating coercion of the turbo importer: coerce both numeric fields, then
`dropna(subset=['averageRating', 'numVotes'])` removes every row in which
either coercion failed. -/
def turboRatingsImport (rows : List RawRating) : List RatingRec :=
  rows.filterMap (fun r =>
    match pyToNumeric r.averageRating, pyToNumeric r.numVotes with
    | some a, some v => some ⟨r.tconst, a, v⟩
    | _, _ => none)

/-! ### Basic importer coercion (`IMDBClone.import_data`) -/

/-- Python's `int()` on a string: an optional sign followed by digits
converts, anything else raises (`none`). -/
def pyParseInt (s : String) : Option Int :=
  match s.data with
  | '-' :: r => if !r.isEmpty && r.all Char.isDigit then some (-(digitsVal r : Int)) else none
  | '+' :: r => if !r.isEmpty && r.all Char.isDigit then some (digitsVal r : Int) else none
  | r => if !r.isEmpty && r.all Char.isDigit then some (digitsVal r : Int) else none

/-- The basic importer's `isAdult` handling: `fillna(0).astype(int)` with no
prior `to_numeric` — a missing value becomes `0`, a well-formed integer string
converts, and any other string makes `astype(int)` raise (`none`). -/
def cloneParseIsAdult (c : Option String) : Option Int :=
  match c with
  | none => some 0
  | some s => pyParseInt s

/-- Per-row Title coercion of the basic importer (year and runtime columns via
`to_numeric(errors='coerce')`, `isAdult` via `fillna(0).astype(int)`). -/
def cloneCoerceTitle (r : RawTitle) : TitleRec :=
  { tconst := r.tconst
    titleType := r.titleType
    primaryTitle := r.primaryTitle
    originalTitle := r.originalTitle
    isAdult := (cloneParseIsAdult r.isAdult).getD 0
    startYear := pyToNumeric r.startYear
    endYear := pyToNumeric r.endYear
    runtimeMinutes := pyToNumeric r.runtimeMinutes
    genres := r.genres }

/-- File-level Title import of the basic importer: the whole `isAdult` column
is converted before any chunk is inserted, so if any row makes `astype(int)`
raise, the surrounding `except` catches it and the entire file is skipped
(zero rows persisted). -/
def cloneTitleImport (rows : List RawTitle) : List TitleRec :=
  if rows.all (fun r => (cloneParseIsAdult r.isAdult).isSome) then
    rows.map cloneCoerceTitle
  else []

/-- Rating import of the basic importer: both numeric fields are coerced with
`to_numeric(errors='coerce')` and the row is persisted regardless — failed
coercions are stored as nulls (its schema has no NOT NULL on these columns). -/
def cloneRatingsImport (rows : List RawRating) : List CloneRatingRec :=
  rows.map (fun r => ⟨r.tconst, pyToNumeric r.averageRating, pyToNumeric r.numVotes⟩)

/-! ### Chunked loading

`TurboDataImporter.parallel_insert` / `_insert_chunk` and the chunk loop of
`IMDBClone.import_data` both attempt one bulk insert per chunk; a chunk whose
insert raises is logged and skipped, never retried or split, and the loop
moves on to the next chunk. `fails i` models a storage-level failure of the
insert of chunk number `i`. -/

/-- Insert chunks numbered from `i` onward: a failing chunk contributes no
rows, every other chunk is appended whole, and processing always continues. -/
def insertChunksFrom {ρ : Type} (fails : Nat → Bool) : Nat → List (List ρ) → List ρ
  | _, [] => []
  | i, c :: cs => (if fails i then [] else c) ++ insertChunksFrom fails (i + 1) cs

/-- Load a full stream of chunks for one table, starting at chunk 0. -/
def insertChunks {ρ : Type} (fails : Nat → Bool) (chunks : List (List ρ)) : List ρ :=
  insertChunksFrom fails 0 chunks

/-! ### Import orchestration

`TurboDataImporter.turbo_import`: create schema, load each available file of
`import_sequence` in order, create indexes, finalize. A missing source file is
logged and skipped. -/

/-- One step of the turbo orchestration. -/
inductive Step : Type
  | createSchema : Step
  | load : String → Step
  | skipMissing : String → Step
  | buildIndexes : Step
  | finalize : Step
deriving DecidableEq

/-- `import_sequence` of `turbo_import`: `(filename, table)` pairs in the
order the source lists them (largest file, `title_principals`, last). -/
def turboImportSequence : List (String × String) :=
  [("title.basics.tsv.gz", "title_basics"),
   ("name.basics.tsv.gz", "name_basics"),
   ("title.ratings.tsv.gz", "title_ratings"),
   ("title.crew.tsv.gz", "title_crew"),
   ("title.episode.tsv.gz", "title_episode"),
   ("title.akas.tsv.gz", "title_akas"),
   ("title.principals.tsv.gz", "title_principals")]

/-- `files_to_import` of `IMDBClone.import_data`. -/
def cloneImportSequence : List (String × String) :=
  [("title.basics.tsv.gz", "title_basics"),
   ("name.basics.tsv.gz", "name_basics"),
   ("title.ratings.tsv.gz", "title_ratings"),
   ("title.episode.tsv.gz", "title_episode"),
   ("title.crew.tsv.gz", "title_crew"),
   ("title.akas.tsv.gz", "title_akas"),
   ("title.principals.tsv.gz", "title_principals")]

/-- The steps `turbo_import` performs, given which source files exist:
schema creation, one load-or-skip per entry of `import_sequence`, index
creation, finalization. -/
def turboImportSteps (exists_ : String → Bool) : List Step :=
  Step.createSchema ::
    (turboImportSequence.map (fun p =>
      if exists_ p.1 then Step.load p.2 else Step.skipMissing p.2)
     ++ [Step.buildIndexes, Step.finalize])

/-- The table a load-or-skip step is about. -/
def stepTable : Step → Option String
  | Step.load t => some t
  | Step.skipMissing t => some t
  | _ => none

/-- The per-entity order of an orchestration run. -/
def entityOrder (steps : List Step) : List String :=
  steps.filterMap stepTable

/-! ### Idempotent setup (`IMDBClone.setup_database`)

The store is modelled by the row count of each of its tables. -/

/-- A store: each existing table with its row count. -/
structure Store : Type where
  tables : List (String × Nat)
deriving DecidableEq

/-- The seven tables of the schema. -/
def schemaTables : List String :=
  ["title_basics", "name_basics", "title_akas", "title_crew",
   "title_episode", "title_principals", "title_ratings"]

/-- `SELECT COUNT(*) FROM t` — `none` models the query raising because the
table does not exist. -/
def tableCount (s : Store) (t : String) : Option Nat :=
  (s.tables.find? (fun p => p.1 = t)).map (fun p => p.2)

/-- `create_schema` drops every existing table and recreates the seven tables
empty. -/
def createSchema : Store :=
  ⟨schemaTables.map (fun t => (t, 0))⟩

/-- A dataset, abstracted to the number of rows the import persists per
table. -/
def Dataset : Type := String → Nat

/-- `import_data` appends the dataset's rows to each table. -/
def importData (d : Dataset) (s : Store) : Store :=
  ⟨s.tables.map (fun p => (p.1, p.2 + d p.1))⟩

/-- `IMDBClone.setup_database`: if `sqlite_master` lists no table, create the
schema and import; otherwise count `title_basics` — a raised count query
(table missing) recreates and reimports, a zero count reimports into the
existing schema, and a populated Title table short-circuits to a plain
connect. -/
def setupDatabase (d : Dataset) (s : Store) : Store :=
  if s.tables.isEmpty then
    importData d createSchema
  else
    match tableCount s "title_basics" with
    | none => importData d createSchema
    | some 0 => importData d s
    | some (_ + 1) => s

/-! ### Title search (`OptimizedQueries.MOVIE_SEARCH`)

SQLite semantics: `=` on text is case-sensitive, `LIKE` is ASCII
case-insensitive; `ORDER BY relevance_score DESC, tr.numVotes DESC` places
`NULL` vote counts (titles without a rating row, from the LEFT JOIN) last. -/

/-- ASCII lowercasing, the normalization SQLite `LIKE` applies. -/
def lowerStr (s : String) : List Char :=
  s.data.map Char.toLower

/-- `title LIKE pat || '%'` — case-insensitive prefix test. -/
def ciStartsWith (pat s : String) : Bool :=
  (lowerStr pat).isPrefixOf (lowerStr s)

/-- Substring occurrence test on character lists. -/
def containsSub (pat : List Char) : List Char → Bool
  | [] => pat.isEmpty
  | c :: t => pat.isPrefixOf (c :: t) || containsSub pat t

/-- `title LIKE '%' || pat || '%'` — case-insensitive substring test. -/
def ciContains (pat s : String) : Bool :=
  containsSub (lowerStr pat) (lowerStr s)

/-- One row of the joined search relation (`title_basics` LEFT JOIN
`title_ratings`). -/
structure SearchRow where
  tconst : String
  primaryTitle : String
  originalTitle : Option String
  titleType : String
  genres : Option String
  averageRating : Option Rat
  numVotes : Option Int
deriving DecidableEq

/-- The `CASE` relevance scoring of `MOVIE_SEARCH`: exact match 100, prefix
match 90, substring match 80, otherwise (original-title-only match) 70. -/
def relevanceScore (term : String) (r : SearchRow) : Nat :=
  if r.primaryTitle = term then 100
  else if ciStartsWith term r.primaryTitle then 90
  else if ciContains term r.primaryTitle then 80
  else 70

/-- The `WHERE` clause of `MOVIE_SEARCH`: movies whose primary or original
title contains the term (a `NULL` original title matches nothing). -/
def matchesSearch (term : String) (r : SearchRow) : Bool :=
  r.titleType == "movie" &&
    (ciContains term r.primaryTitle ||
      (match r.originalTitle with
       | some o => ciContains term o
       | none => false))

/-- `numVotes DESC` with `NULL` last: `a` sorts no later than `b`. -/
def voteGe : Option Int → Option Int → Bool
  | _, none => true
  | none, some _ => false
  | some x, some y => y ≤ x

/-- The `ORDER BY relevance_score DESC, tr.numVotes DESC` ordering of
`MOVIE_SEARCH`: `a` comes no later than `b`. -/
def searchOrd (term : String) (a b : SearchRow) : Prop :=
  relevanceScore term b < relevanceScore term a ∨
    (relevanceScore term a = relevanceScore term b ∧ voteGe a.numVotes b.numVotes = true)

instance (term : String) : DecidableRel (searchOrd term) := fun a b => by
  unfold searchOrd; infer_instance

/-- `MOVIE_SEARCH`: filter the joined relation, sort by relevance then votes,
and apply `LIMIT`. -/
def movieSearch (term : String) (rows : List SearchRow) (lim : Nat) : List SearchRow :=
  (List.insertionSort (searchOrd term) (rows.filter (matchesSearch term))).take lim

/-! ### Query execution and caching (`OptimizedDatabaseManager.execute_query`)

Parameter tuples are modelled as integer tuples; string parameters pass
through Python's `str()` the same way. -/

/-- Python `str()` of a parameter tuple: `str((5,)) = "(5,)"`,
`str((1, 2)) = "(1, 2)"`. -/
def pyStrTuple (ps : List Int) : String :=
  match ps with
  | [] => "()"
  | [x] => "(" ++ toString x ++ ",)"
  | xs => "(" ++ String.intercalate ", " (xs.map toString) ++ ")"

/-- The cache key of `execute_query`:
`f"{query}:{str(params)}" if params else query` — the raw formatted string;
`params` equal to `None` or the empty tuple is falsy and leaves the bare
query text. -/
def cacheKey (query : String) (params : Option (List Int)) : String :=
  match params with
  | none => query
  | some [] => query
  | some ps => query ++ ":" ++ pyStrTuple ps

/-- `self.cache_size = 1000`. -/
def cacheSize : Nat := 1000

/-- `self.enable_cache = True` (never changed afterwards). -/
def enableCache : Bool := true

/-- `key in cache` / `cache[key]` on the insertion-ordered dict. -/
def lookupCache {ρ : Type} (c : List (String × List ρ)) (k : String) : Option (List ρ) :=
  (c.find? (fun p => p.1 == k)).map (fun p => p.2)

/-- `cache[key] = results` on the insertion-ordered dict: overwrite in place
when the key exists, otherwise append as the newest entry. -/
def dictAssign {ρ : Type} (c : List (String × List ρ)) (k : String) (v : List ρ) :
    List (String × List ρ) :=
  if (lookupCache c k).isSome then
    c.map (fun p => if p.1 == k then (k, v) else p)
  else
    c ++ [(k, v)]

/-- The store step of `execute_query`: when the dict holds at least
`cache_size` entries, delete the first half of its keys; then assign
`cache[key] = results`. -/
def cacheStore {ρ : Type} (c : List (String × List ρ)) (k : String) (v : List ρ) :
    List (String × List ρ) :=
  dictAssign (if cacheSize ≤ c.length then c.drop (c.length / 2) else c) k v

/-- `execute_query`: serve a cache hit; otherwise run the query — any raised
error (connectivity failure included) is caught, printed and turned into the
empty list — and cache a fast, small result. `outcome` models the storage
layer's answer, `fast` the `execution_time < 2.0` test. -/
def executeQuery {ρ : Type} (cache : List (String × List ρ)) (query : String)
    (params : Option (List Int)) (useCache : Bool) (outcome : Except Unit (List ρ))
    (fast : Bool) : List ρ × List (String × List ρ) :=
  match (if useCache ∧ enableCache then lookupCache cache (cacheKey query params)
         else none) with
  | some cached => (cached, cache)
  | none =>
    match outcome with
    | .error _ => ([], cache)
    | .ok results =>
      if useCache ∧ fast ∧ results.length < 10000 then
        (results, cacheStore cache (cacheKey query params) results)
      else
        (results, cache)

/-! ### Concrete fixtures used by witnesses and counterexamples -/

/-- A well-formed raw Title row. -/
def titleRowA : RawTitle :=
  ⟨"tt0000001", some "movie", some "Alpha", some "Alpha", some "0",
   some "1994", none, some "100", some "Drama"⟩

/-- A raw Title row whose `startYear` cell was empty in the source file. -/
def titleRowB : RawTitle :=
  ⟨"tt0000002", some "movie", some "Beta", some "Beta", some "1",
   readCell "", none, some "90", some "Comedy"⟩

/-- A raw Title row with a malformed `isAdult` field. -/
def titleRowC : RawTitle :=
  ⟨"tt0000003", some "movie", some "Gamma", some "Gamma", some "corrupt",
   some "2001", none, none, some "Drama"⟩

/-- The 3-row Title file of the §8 scenario: row 2 has an empty `startYear`,
row 3 a malformed `isAdult`. -/
def scenarioTitleFile : List RawTitle :=
  [titleRowA, titleRowB, titleRowC]

/-- A 5-row Rating file in which the third row's `averageRating` is the
non-numeric string `N/A`. -/
def scenarioRatingFile : List RawRating :=
  [⟨"tt0000001", some "8.1", some "100"⟩,
   ⟨"tt0000002", some "7.0", some "50"⟩,
   ⟨"tt0000003", some "N/A", some "7"⟩,
   ⟨"tt0000004", some "6.5", some "20"⟩,
   ⟨"tt0000005", some "5.0", some "10"⟩]

/-- Search fixture: an exact match for the term `"Matrix"`. -/
def rowMatrix : SearchRow :=
  ⟨"tt0000101", "Matrix", none, "movie", some "Sci-Fi", some 8, some 1000⟩

/-- Search fixture: a substring match with 500 votes. -/
def rowMatrixReloaded : SearchRow :=
  ⟨"tt0000102", "The Matrix Reloaded", none, "movie", some "Sci-Fi", some 7, some 500⟩

/-- Search fixture: a substring match with 800 votes. -/
def rowMatrixClone : SearchRow :=
  ⟨"tt0000103", "A Matrix Clone", none, "movie", none, none, some 800⟩

/-- The three-title search relation of the §8 search-ranking property. -/
def matrixRows : List SearchRow :=
  [rowMatrix, rowMatrixReloaded, rowMatrixClone]

/-- A query text that happens to end in the rendering of another call's
parameter tuple. -/
def collidingQueryA : String :=
  "SELECT tconst FROM title_basics WHERE startYear = ?:(5,)"

/-- A parameterized query text. -/
def collidingQueryB : String :=
  "SELECT tconst FROM title_basics WHERE startYear = ?"

/-- A store whose seven-table schema exists and whose Title table is
populated. -/
def loadedStore : Store :=
  ⟨[("title_basics", 3), ("name_basics", 2), ("title_akas", 0), ("title_crew", 1),
    ("title_episode", 1), ("title_principals", 4), ("title_ratings", 2)]⟩

/-- A failure oracle under which only the insert of chunk 1 raises. -/
def failSecondChunk : Nat → Bool :=
  fun i => i == 1

/-- A concrete three-chunk stream. -/
def threeChunks : List (List Nat) :=
  [[1, 2], [3], [4, 5]]

end IMDBClone

namespace IMDBClone

/-! ## Supporting lemmas -/

/-- `voteGe` is total. -/
lemma voteGe_total (a b : Option Int) : voteGe a b = true ∨ voteGe b a = true := by
  cases a <;> cases b <;> simp [voteGe]
  omega

/-- `voteGe` is transitive. -/
lemma voteGe_trans {a b c : Option Int} (h1 : voteGe a b = true) (h2 : voteGe b c = true) :
    voteGe a c = true := by
  cases a <;> cases b <;> cases c <;> simp_all [voteGe]
  omega

instance (term : String) : IsTotal SearchRow (searchOrd term) := by
  constructor
  intro a b
  unfold searchOrd
  rcases Nat.lt_trichotomy (relevanceScore term a) (relevanceScore term b) with h | h | h
  · exact Or.inr (Or.inl h)
  · rcases voteGe_total a.numVotes b.numVotes with hv | hv
    · exact Or.inl (Or.inr ⟨h, hv⟩)
    · exact Or.inr (Or.inr ⟨h.symm, hv⟩)
  · exact Or.inl (Or.inl h)

instance (term : String) : IsTrans SearchRow (searchOrd term) := by
  constructor
  intro a b c hab hbc
  unfold searchOrd at *
  rcases hab with h1 | ⟨h1, v1⟩ <;> rcases hbc with h2 | ⟨h2, v2⟩
  · exact Or.inl (Nat.lt_trans h2 h1)
  · exact Or.inl (h2 ▸ h1)
  · exact Or.inl (h1 ▸ h2)
  · exact Or.inr ⟨h1.trans h2, voteGe_trans v1 v2⟩

/-! ## Claim theorems -/

/-- Claim C1: running the setup entry point (`IMDBClone.setup_database`) on a
store whose schema exists and whose Title table is populated performs no
action at all — no table is dropped or recreated, no data is re-imported, and
every table's row count is unchanged. The skip is gated on the
`SELECT COUNT(*) FROM title_basics` probe returning a positive count. -/
theorem setup_database_idempotent (d : Dataset) (s : Store) (n : Nat)
    (hn : tableCount s "title_basics" = some n) (hpos : 0 < n) :
    setupDatabase d s = s := by
  have hne : s.tables.isEmpty = false := by
    cases ht : s.tables with
    | nil => simp [tableCount, ht] at hn
    | cons a l => simp [List.isEmpty]
  obtain ⟨k, rfl⟩ : ∃ k, n = k + 1 := ⟨n - 1, by omega⟩
  simp [setupDatabase, hne, hn]

/-- Witness for C1: on a concrete fully-populated store, setup returns the
store unchanged. -/
theorem setup_database_idempotent_witness :
    tableCount loadedStore "title_basics" = some 3 ∧ 0 < 3 ∧
      setupDatabase (fun _ => 5) loadedStore = loadedStore :=
  ⟨by decide, by decide,
   setup_database_idempotent (fun _ => 5) loadedStore 3 (by decide) (by decide)⟩

/-- Claim C3: a numeric source field (`startYear`, `endYear`,
`runtimeMinutes`, `birthYear`, `deathYear`, `seasonNumber`, `episodeNumber`)
whose cell is empty or equals the null-sentinel `\N` is persisted as null —
never zero, never a parsed garbage value — in both importers' coercions. -/
theorem numeric_null_sentinel_coercion (s : String) (h : s = "" ∨ s = "\\N") :
    (∀ t : RawTitle,
      (turboCoerceTitle { t with startYear := readCell s }).startYear = none ∧
      (turboCoerceTitle { t with endYear := readCell s }).endYear = none ∧
      (turboCoerceTitle { t with runtimeMinutes := readCell s }).runtimeMinutes = none ∧
      (cloneCoerceTitle { t with startYear := readCell s }).startYear = none ∧
      (cloneCoerceTitle { t with endYear := readCell s }).endYear = none ∧
      (cloneCoerceTitle { t with runtimeMinutes := readCell s }).runtimeMinutes = none) ∧
    (∀ p : RawName,
      (coerceName { p with birthYear := readCell s }).birthYear = none ∧
      (coerceName { p with deathYear := readCell s }).deathYear = none) ∧
    (∀ e : RawEpisode,
      (coerceEpisode { e with seasonNumber := readCell s }).seasonNumber = none ∧
      (coerceEpisode { e with episodeNumber := readCell s }).episodeNumber = none) := by
  have hc : readCell s = none := by
    rcases h with h | h <;> simp [readCell, h]
  refine ⟨fun t => ?_, fun p => ?_, fun e => ?_⟩ <;>
    simp [turboCoerceTitle, cloneCoerceTitle, coerceName, coerceEpisode, pyToNumeric, hc]

/-- Witness for C3: the null sentinel in a concrete Title row's `startYear`
is persisted as null. -/
theorem numeric_null_sentinel_coercion_witness :
    (turboCoerceTitle { titleRowA with startYear := readCell "\\N" }).startYear = none :=
  (((numeric_null_sentinel_coercion "\\N" (Or.inr rfl)).1 titleRowA).1)

/-- Claim C2 (amended): in the turbo importer, the persisted ratings table
consists of exactly the input rows whose `averageRating` and `numVotes` both
coerce to numbers — a row with a non-numeric field is absent, every
fully-numeric row of the same file is present, and no row is stored with
nulls. -/
theorem turbo_rating_rejection (rows : List RawRating) (o : RatingRec) :
    o ∈ turboRatingsImport rows ↔
      ∃ r ∈ rows, ∃ a v, pyToNumeric r.averageRating = some a ∧
        pyToNumeric r.numVotes = some v ∧ o = ⟨r.tconst, a, v⟩ := by
  simp only [turboRatingsImport, List.mem_filterMap]
  constructor
  · rintro ⟨r, hr, hf⟩
    refine ⟨r, hr, ?_⟩
    cases ha : pyToNumeric r.averageRating with
    | none => rw [ha] at hf; simp at hf
    | some a =>
      cases hv : pyToNumeric r.numVotes with
      | none => rw [ha, hv] at hf; simp at hf
      | some v =>
        rw [ha, hv] at hf
        exact ⟨a, v, rfl, rfl, (Option.some.inj hf).symm⟩
  · rintro ⟨r, hr, a, v, ha, hv, rfl⟩
    exact ⟨r, hr, by rw [ha, hv]⟩

/-- Counterexample for C2: the basic importer (`IMDBClone.import_data`)
persists the `N/A` rating row of the 5-row scenario file with a null
`averageRating` instead of dropping it — all 5 rows reach the table. -/
theorem clone_rating_nulls_counterexample :
    (cloneRatingsImport scenarioRatingFile).length = 5 ∧
      (⟨"tt0000003", none, some 7⟩ : CloneRatingRec) ∈
        cloneRatingsImport scenarioRatingFile := by
  constructor
  · rfl
  · decide

/-- Claim C7 (amended): the turbo importer persists every Title row, and a
row whose `isAdult` field is absent or unparsable is stored with `isAdult`
equal to 0. -/
theorem turbo_isadult_default (rows : List RawTitle) :
    (turboTitleImport rows).length = rows.length ∧
    ∀ r ∈ rows, pyToNumeric r.isAdult = none →
      turboCoerceTitle r ∈ turboTitleImport rows ∧ (turboCoerceTitle r).isAdult = 0 := by
  refine ⟨List.length_map _ _, fun r hr h => ⟨List.mem_map_of_mem _ hr, ?_⟩⟩
  simp [turboCoerceTitle, h]

/-- Witness for C7: on the concrete 3-row scenario file the turbo importer
persists 3 rows, row 2's `startYear` is null and row 3's `isAdult` is 0. -/
theorem turbo_isadult_default_witness :
    (turboTitleImport scenarioTitleFile).length = 3 ∧
      (turboCoerceTitle titleRowB).startYear = none ∧
      (turboCoerceTitle titleRowC).isAdult = 0 :=
  ⟨(turbo_isadult_default scenarioTitleFile).1.trans rfl,
   by decide,
   ((turbo_isadult_default scenarioTitleFile).2 titleRowC
      (by simp [scenarioTitleFile]) (by decide)).2⟩

/-- Counterexample for C7: on the same 3-row file, the basic importer
(`IMDBClone.import_data`) does not persist 3 rows — the malformed `isAdult`
makes the whole-column `astype(int)` conversion raise before any chunk is
inserted, and the entire file is skipped (0 rows persisted). -/
theorem clone_isadult_abort_counterexample :
    cloneTitleImport scenarioTitleFile = [] ∧
      (cloneTitleImport scenarioTitleFile).length ≠ 3 := by
  decide

/-- A load-or-skip step is about the table of its sequence entry. -/
lemma stepTable_if (b : Bool) (t : String) :
    stepTable (if b then Step.load t else Step.skipMissing t) = some t := by
  cases b <;> rfl

/-- The per-entity order of the load-or-skip steps is the table order of
their sequence, regardless of which files exist. -/
lemma entityOrder_loads (avail : String → Bool) (l : List (String × String)) :
    List.filterMap stepTable
        (l.map (fun p => if avail p.1 then Step.load p.2 else Step.skipMissing p.2)) =
      l.map Prod.snd := by
  induction l with
  | nil => rfl
  | cons p l ih => by_cases h : avail p.1 <;> simp [h, stepTable, ih]

/-- Claim C4 (amended): `turbo_import` runs schema creation first, then one
load-or-skip step per entity in the fixed order Title, Person, Rating, Crew,
Episode, AlternateTitle, Principal (Principal last), then index creation only
after all entity steps, then finalization — whichever source files exist. -/
theorem turbo_import_step_order (avail : String → Bool) :
    entityOrder (turboImportSteps avail) =
      ["title_basics", "name_basics", "title_ratings", "title_crew",
       "title_episode", "title_akas", "title_principals"] ∧
    ∃ loads : List Step,
      turboImportSteps avail =
        Step.createSchema :: (loads ++ [Step.buildIndexes, Step.finalize]) ∧
      ∀ s ∈ loads, ∃ t, stepTable s = some t := by
  constructor
  · show List.filterMap stepTable _ = _
    rw [turboImportSteps, List.filterMap_cons, List.filterMap_append, entityOrder_loads]
    rfl
  · refine ⟨_, rfl, ?_⟩
    intro s hs
    obtain ⟨p, _, rfl⟩ := List.mem_map.mp hs
    exact ⟨p.2, stepTable_if _ _⟩

/-- Counterexample for C4: the turbo orchestration does not load in the
claimed order Title, Person, Rating, Episode, Crew, AlternateTitle,
Principal — it loads Crew before Episode. -/
theorem turbo_entity_order_counterexample :
    entityOrder (turboImportSteps (fun _ => true)) ≠
      ["title_basics", "name_basics", "title_ratings", "title_episode",
       "title_crew", "title_akas", "title_principals"] := by
  decide

/-- Chunk loading from index `i` equals the concatenation of the chunks whose
inserts do not fail, in stream order. -/
lemma insertChunksFrom_eq {ρ : Type} (fails : Nat → Bool) :
    ∀ (i : Nat) (cs : List (List ρ)),
      insertChunksFrom fails i cs =
        (((cs.enumFrom i).filter (fun p => !fails p.1)).map Prod.snd).flatten := by
  intro i cs
  induction cs generalizing i with
  | nil => rfl
  | cons c cs ih =>
    by_cases hf : fails i
    · simp [insertChunksFrom, hf, ih]
    · simp [insertChunksFrom, hf, ih]

/-- A chunk whose insert does not fail lands whole in the loaded table, no
matter which other chunks failed before or after it. -/
lemma mem_insertChunksFrom {ρ : Type} (fails : Nat → Bool) :
    ∀ (j i : Nat) (cs : List (List ρ)) (c : List ρ), cs[j]? = some c →
      fails (i + j) = false → ∀ x ∈ c, x ∈ insertChunksFrom fails i cs := by
  intro j
  induction j with
  | zero =>
    intro i cs c hc hf x hx
    cases cs with
    | nil => simp at hc
    | cons c0 cs =>
      obtain rfl : c0 = c := by simpa using hc
      simp only [insertChunksFrom]
      rw [show i + 0 = i from rfl] at hf
      simp [hf]
      exact Or.inl hx
  | succ j ih =>
    intro i cs c hc hf x hx
    cases cs with
    | nil => simp at hc
    | cons c0 cs =>
      simp only [List.getElem?_cons_succ] at hc
      have := ih (i + 1) cs c hc (by rw [show i + 1 + j = i + (j + 1) from by omega]; exact hf) x hx
      simp only [insertChunksFrom, List.mem_append]
      exact Or.inr this

/-- Claim C6: the loaded table is exactly the concatenation of the chunks
whose single bulk insert succeeded — a failing chunk is skipped whole (not
retried, not split) and every subsequent chunk of the stream is still
attempted and, when its insert succeeds, persisted. -/
theorem chunk_failure_isolation {ρ : Type} (fails : Nat → Bool) (chunks : List (List ρ)) :
    insertChunks fails chunks =
      ((chunks.enum.filter (fun p => !fails p.1)).map Prod.snd).flatten ∧
    ∀ (j : Nat) (c : List ρ), chunks[j]? = some c → fails j = false →
      ∀ x ∈ c, x ∈ insertChunks fails chunks := by
  constructor
  · exact insertChunksFrom_eq fails 0 chunks
  · intro j c hc hf x hx
    exact mem_insertChunksFrom fails j 0 chunks c hc (by simpa using hf) x hx

/-- Witness for C6: with chunk 1 of three chunks failing, chunks 0 and 2 are
persisted and element 4 of the subsequent chunk 2 is present. -/
theorem chunk_failure_isolation_witness :
    insertChunks failSecondChunk threeChunks = [1, 2, 4, 5] ∧
      (4 : Nat) ∈ insertChunks failSecondChunk threeChunks :=
  ⟨(chunk_failure_isolation failSecondChunk threeChunks).1.trans (by decide),
   (chunk_failure_isolation failSecondChunk threeChunks).2 2 [4, 5]
     (by decide) (by decide) 4 (by decide)⟩

/-- The search output is sorted by the `ORDER BY` ordering of
`MOVIE_SEARCH`. -/
lemma movieSearch_sorted (term : String) (rows : List SearchRow) (lim : Nat) :
    (movieSearch term rows lim).Sorted (searchOrd term) :=
  List.Pairwise.sublist (List.take_sublist _ _)
    (List.sorted_insertionSort (searchOrd term) (rows.filter (matchesSearch term)))

/-- Claim C5: in every search result list, an earlier row has a relevance
tier at least that of any later row (exact = 100 before prefix = 90 before
substring = 80), and two rows of the same tier appear in descending vote
order (`NULL` votes last). -/
theorem movie_search_ranking (term : String) (rows : List SearchRow) (lim : Nat)
    (i j : Fin (movieSearch term rows lim).length) (hij : i < j) :
    relevanceScore term ((movieSearch term rows lim).get j) ≤
      relevanceScore term ((movieSearch term rows lim).get i) ∧
    (relevanceScore term ((movieSearch term rows lim).get i) =
        relevanceScore term ((movieSearch term rows lim).get j) →
      voteGe ((movieSearch term rows lim).get i).numVotes
        ((movieSearch term rows lim).get j).numVotes = true) := by
  have hrel := (movieSearch_sorted term rows lim).rel_get_of_lt hij
  rcases hrel with h | ⟨h, hv⟩
  · exact ⟨Nat.le_of_lt h, fun he => absurd h (by omega)⟩
  · exact ⟨Nat.le_of_eq h.symm, fun _ => hv⟩

/-- Witness for C5: searching `"Matrix"` among `"Matrix"` (1000 votes),
`"The Matrix Reloaded"` (500 votes) and `"A Matrix Clone"` (800 votes) ranks
the exact match first and the two substring matches after it in descending
vote order, and the theorem applies to the first result pair. -/
theorem movie_search_ranking_witness :
    movieSearch "Matrix" matrixRows 10 = [rowMatrix, rowMatrixClone, rowMatrixReloaded] ∧
    relevanceScore "Matrix" ((movieSearch "Matrix" matrixRows 10).get ⟨1, by decide⟩) ≤
      relevanceScore "Matrix" ((movieSearch "Matrix" matrixRows 10).get ⟨0, by decide⟩) :=
  ⟨by decide,
   (movie_search_ranking "Matrix" matrixRows 10 ⟨0, by decide⟩ ⟨1, by decide⟩
     (by decide)).1⟩

/-- Claim C8 (amended): `execute_query` returns an empty list (not an error)
for a well-formed query matching zero rows, and it also returns a plain empty
list when the storage layer raises (connectivity failure included) — the
error is printed, not reported, so the caller cannot distinguish the two. -/
theorem query_empty_and_error {ρ : Type} (cache : List (String × List ρ)) (q : String)
    (p : Option (List Int)) (fast : Bool) :
    (executeQuery cache q p false (Except.ok ([] : List ρ)) fast).1 = [] ∧
    (executeQuery cache q p false (Except.error ()) fast).1 = [] ∧
    (executeQuery cache q p false (Except.error ()) fast).2 = cache := by
  simp [executeQuery]

/-- Counterexample for C8: a genuine connectivity failure and a legitimately
empty result are different storage outcomes, yet `execute_query` hands the
caller the very same value for both. -/
theorem query_error_indistinguishable_counterexample :
    (Except.error () : Except Unit (List Nat)) ≠ Except.ok [] ∧
    (executeQuery ([] : List (String × List Nat)) "SELECT tconst FROM title_basics" none
        true (Except.error ()) true).1 =
      (executeQuery ([] : List (String × List Nat)) "SELECT tconst FROM title_basics" none
        true (Except.ok []) true).1 := by
  exact ⟨fun h => Except.noConfusion h, rfl⟩

/-- Claim C9 (amended): the cache key is the raw formatted string
`f"{query}:{str(params)}"` (the bare query text when `params` is falsy). Two
calls with the same parameter tuple and different query texts always get
different keys, but the keying is not injective across calls: a query text
that embeds another call's rendered parameters collides with it. -/
theorem cache_key_fixed_params (p : Option (List Int)) (q1 q2 : String) (h : q1 ≠ q2) :
    cacheKey q1 p ≠ cacheKey q2 p := by
  cases p with
  | none => simpa [cacheKey] using h
  | some ps =>
    cases ps with
    | nil => simpa [cacheKey] using h
    | cons x xs =>
      simp only [cacheKey]
      intro he
      apply h
      have hd := congrArg String.data he
      simp only [String.data_append] at hd
      have h1 := List.append_cancel_right hd
      have h2 := List.append_cancel_right h1
      cases q1
      cases q2
      exact congrArg String.mk h2

/-- Witness for C9: two distinct query texts with the same (absent)
parameters get distinct keys. -/
theorem cache_key_fixed_params_witness :
    cacheKey "SELECT 1" none ≠ cacheKey "SELECT 2" none :=
  cache_key_fixed_params none "SELECT 1" "SELECT 2" (by decide)

/-- Counterexample for C9: two distinct `(query, parameters)` inputs — one
whose query text ends in the rendering `:(5,)` of the other's parameter
tuple — produce the same cache key, so a cached result can be served for a
different operation. -/
theorem cache_key_collision_counterexample :
    collidingQueryA ≠ collidingQueryB ∧
    cacheKey collidingQueryA none = cacheKey collidingQueryB (some [5]) := by
  constructor
  · decide
  · rfl

/-- A dict assignment grows the cache by at most one entry. -/
lemma dictAssign_length_le {ρ : Type} (c : List (String × List ρ)) (k : String)
    (v : List ρ) : (dictAssign c k v).length ≤ c.length + 1 := by
  unfold dictAssign
  split
  · simp
  · simp

/-- The store step keeps the cache within `cache_size` entries. -/
lemma cacheStore_length_le {ρ : Type} (c : List (String × List ρ)) (k : String)
    (v : List ρ) (h : c.length ≤ cacheSize) : (cacheStore c k v).length ≤ cacheSize := by
  unfold cacheStore
  by_cases h1 : cacheSize ≤ c.length
  · rw [if_pos h1]
    have := dictAssign_length_le (c.drop (c.length / 2)) k v
    have hd : (c.drop (c.length / 2)).length = c.length - c.length / 2 :=
      List.length_drop _ _
    simp only [cacheSize] at *
    omega
  · rw [if_neg h1]
    have := dictAssign_length_le c k v
    simp only [cacheSize] at *
    omega

/-- Claim C10: every call to `execute_query` preserves the invariant that the
query cache holds at most `cache_size = 1000` entries — when the cache is
full, half of its entries are evicted before the new result is stored. -/
theorem query_cache_bound {ρ : Type} (cache : List (String × List ρ)) (q : String)
    (p : Option (List Int)) (u : Bool) (outcome : Except Unit (List ρ)) (fast : Bool)
    (h : cache.length ≤ cacheSize) :
    ((executeQuery cache q p u outcome fast).2).length ≤ cacheSize := by
  unfold executeQuery
  rcases hh : (if u ∧ enableCache then lookupCache cache (cacheKey q p) else none) with
    _ | cached
  · cases outcome with
    | error e => exact h
    | ok results =>
      dsimp only
      split
      · exact cacheStore_length_le _ _ _ h
      · exact h
  · exact h

/-- Witness for C10: a call on an empty cache stays within the bound. -/
theorem query_cache_bound_witness :
    (([] : List (String × List Nat)).length ≤ cacheSize) ∧
    ((executeQuery ([] : List (String × List Nat)) "SELECT COUNT(*) FROM name_basics"
        none true (Except.ok [7]) true).2).length ≤ cacheSize :=
  ⟨by decide,
   query_cache_bound [] "SELECT COUNT(*) FROM name_basics" none true (Except.ok [7]) true
     (by decide)⟩

end IMDBClone
